import Mathlib

/-!
Shallow embedding of `src/server.js`: an Express application exposing CRUD and
query routes over an in-memory list of products.

Modelling conventions:
* JavaScript values that flow through request payloads are modelled by `JSVal`
  (strings, numbers as exact rationals, booleans); an absent object property is
  `Option.none`.  `null` and `NaN` do not occur in any claim and are left out.
* The in-memory array `products` is a `List Product`; handlers are pure
  functions from the current list (plus request data) to a status code, a
  response body and the new list.
* `uuidv4()` is modelled by a `freshId` parameter supplied to the request
  semantics; freshness is stated as a hypothesis where a claim needs it.
* Express dispatches a request to the first registered route whose method and
  path pattern match; `routes` lists the registrations of server.js in source
  order and `dispatch` performs that first-match scan.
-/

set_option autoImplicit false

namespace ProductsApi

/-- Fragment of JavaScript runtime values appearing in product payloads. -/
inductive JSVal where
  | vStr (s : String)
  | vNum (q : ℚ)
  | vBool (b : Bool)
  deriving DecidableEq, Repr

/-- JavaScript truthiness for the modelled values: empty string, zero and
`false` are falsy. -/
def JSVal.truthy : JSVal → Bool
  | .vStr s => s ≠ ""
  | .vNum q => q ≠ 0
  | .vBool b => b

/-- Truthiness of a possibly-absent string property (`undefined` is falsy). -/
def truthyStr : Option String → Bool
  | none => false
  | some s => s ≠ ""

/-- Truthiness of a possibly-absent value property (`undefined` is falsy). -/
def truthyVal : Option JSVal → Bool
  | none => false
  | some v => v.truthy

/-- A stored product record (server.js lines 20-37 give the seeded shape):
`description` is optional, `price` is stored verbatim from the payload spread,
`inStock` is a boolean. -/
structure Product where
  id : String
  name : String
  description : Option String
  price : JSVal
  category : String
  inStock : Bool
  deriving DecidableEq, Repr

/-- A request body for create/update: each product field possibly absent.
`idField` models a client-supplied `id` property in the JSON body. -/
structure Payload where
  idField : Option String := none
  name : Option String := none
  description : Option String := none
  price : Option JSVal := none
  category : Option String := none
  inStock : Option Bool := none
  deriving DecidableEq, Repr

/-- Modelled from the spec: `./errors` is required by server.js (line 4) but the
file is absent from the sources.  Spec section 7 fixes the taxonomy:
ValidationError carries HTTP status 400 and NotFoundError 404, read by the
error middleware from `err.statusCode`; an error without a `statusCode`
(for example a runtime TypeError) falls back to 500 (server.js line 176). -/
inductive AppError where
  | validation (msg : String)
  | notFound (msg : String)
  | generic (msg : String)
  deriving DecidableEq, Repr

def AppError.statusCode : AppError → Nat
  | .validation _ => 400
  | .notFound _ => 404
  | .generic _ => 500

def AppError.msg : AppError → String
  | .validation m => m
  | .notFound m => m
  | .generic m => m

/-- Response bodies the server can serialize.  `errorObj m s` stands for the
JSON envelope produced by the error middleware (server.js lines 177-183),
whose fields are `message`, `status` and a `timestamp` (the wall-clock
serialization instant, abstracted away); `messageObj` stands for the bare
object sent directly by the authentication middleware (line 43). -/
inductive ResBody where
  | text (s : String)
  | jsonProduct (p : Product)
  | jsonProducts (ps : List Product)
  | paged (data : List Product) (currentPage totalPages totalItems : Nat)
  | statsObj (totalProducts : Nat) (byCategory : List (String × Nat)) (inStock outOfStock : Nat)
  | errorObj (message : String) (status : Nat)
  | messageObj (message : String)
  | empty
  deriving DecidableEq, Repr

/-- Status code, response body, and the product list after the request. -/
abbrev Response := Nat × ResBody × List Product

/-- Centralized error middleware (server.js lines 174-184): status from
`err.statusCode || 500`, body of shape error/message/status/timestamp. -/
def errorResponse (st : List Product) (e : AppError) : Response :=
  (e.statusCode, .errorObj e.msg e.statusCode, st)

/-- Validation middleware (server.js lines 49-65): rejects when `name`,
`price` or `category` is falsy (absent, empty string, zero or false), when
`price` is not a number, and when `price <= 0`, in that order. -/
def validateProduct (b : Payload) : Option AppError :=
  if ¬ truthyStr b.name ∨ ¬ truthyVal b.price ∨ ¬ truthyStr b.category then
    some (.validation "Name, price and category are required")
  else
    match b.price with
    | some (.vNum q) =>
      if q ≤ 0 then some (.validation "Price must be greater than 0") else none
    | _ => some (.validation "Price must be a number")

/-- Authentication middleware (server.js lines 40-46): the `x-api-key` header
must be truthy and strictly equal to `process.env.API_KEY`.  `secret = none`
models an unset API_KEY environment variable. -/
def authOk (secret apiKey : Option String) : Bool :=
  match apiKey with
  | none => false
  | some k => if k = "" then false else decide (secret = some k)

/-- Character-list prefix test, mirroring the left-to-right comparison done by
the JavaScript substring search. -/
def startsWithChars : List Char → List Char → Bool
  | [], _ => true
  | _ :: _, [] => false
  | a :: as, b :: bs => a == b && startsWithChars as bs

/-- Substring occurrence test on character lists. -/
def containsChars (sub : List Char) : List Char → Bool
  | [] => startsWithChars sub []
  | c :: rest => startsWithChars sub (c :: rest) || containsChars sub rest

/-- ASCII lowering of one character, the fragment of `toLowerCase` exercised
by the data in scope. -/
def lowerChar (c : Char) : Char :=
  if 'A' ≤ c ∧ c ≤ 'Z' then Char.ofNat (c.toNat + 32) else c

/-- Character list of `s.toLowerCase()`. -/
def toLowerChars (s : String) : List Char :=
  s.data.map lowerChar

/-- JavaScript `s.toLowerCase().includes(sub.toLowerCase())`. -/
def lowerIncludes (s sub : String) : Bool :=
  containsChars (toLowerChars sub) (toLowerChars s)

/-- Case-insensitive string equality as in `a.toLowerCase() === b.toLowerCase()`. -/
def lowerEq (a b : String) : Bool :=
  toLowerChars a == toLowerChars b

/-- JavaScript `Math.ceil(n / lim)` for natural `n` and positive natural
`lim`; only invoked under the claims' positive-integer scope. -/
def jsCeilDiv (n lim : Nat) : Nat :=
  (n + lim - 1) / lim

/-- GET /api/products handler (server.js lines 73-93).  Query parameters
`page` and `limit` default to 1 and 10; a falsy `category` (absent or the
empty string, since `if (category)` tests truthiness) applies no filter;
the slice is `[(page-1)*limit, page*limit)` over the filtered copy; the
store is returned unchanged. -/
def listHandler (st : List Product) (category : Option String) (pageQ limitQ : Option Nat) : Response :=
  let page := pageQ.getD 1
  let lim := limitQ.getD 10
  let result :=
    match category with
    | some c => if c = "" then st else st.filter (fun p => lowerEq p.category c)
    | none => st
  let startIndex := (page - 1) * lim
  let endIndex := page * lim
  let data := (result.drop startIndex).take (endIndex - startIndex)
  (200, .paged data page (jsCeilDiv result.length lim) result.length, st)

/-- GET /api/products/:id handler (server.js lines 96-102). -/
def getByIdHandler (st : List Product) (pid : String) : Response :=
  match st.find? (fun p => p.id == pid) with
  | some p => (200, .jsonProduct p, st)
  | none => errorResponse st (.notFound "Product not found")

/-- JavaScript `req.body.inStock || true` for a boolean-or-absent property:
yields the value when truthy, otherwise `true` — so always `true`. -/
def jsOrTrue : Option Bool → Bool
  | some b => if b then b else true
  | none => true

/-- Object literal of the POST handler (server.js lines 106-110):
`id: uuidv4()` first, then the body spread (so a client-supplied `id`
property overwrites the fresh uuid), then `inStock` recomputed last.
The `""` and `vNum 0` fallbacks for `name`, `price` and `category` are
unreachable behind `validateProduct`, which requires those fields truthy. -/
def createProduct (freshId : String) (b : Payload) : Product :=
  { id := b.idField.getD freshId
  , name := b.name.getD ""
  , description := b.description
  , price := b.price.getD (.vNum 0)
  , category := b.category.getD ""
  , inStock := jsOrTrue b.inStock }

/-- POST /api/products pipeline after authentication: validation middleware,
then append the built product (server.js lines 105-113). -/
def createHandler (freshId : String) (st : List Product) (b : Payload) : Response :=
  match validateProduct b with
  | some e => errorResponse st e
  | none =>
    let p := createProduct freshId b
    (201, .jsonProduct p, st ++ [p])

/-- Merge of the PUT handler (server.js lines 122-126): old record spread
first, body spread second (supplied fields win), `id` reset to the old id
last. -/
def mergeUpdate (old : Product) (b : Payload) : Product :=
  { id := old.id
  , name := b.name.getD old.name
  , description :=
      match b.description with
      | some d => some d
      | none => old.description
  , price := b.price.getD old.price
  , category := b.category.getD old.category
  , inStock := b.inStock.getD old.inStock }

/-- Replacement at the index found by `findIndex` (first match). -/
def updateFirst (pid : String) (b : Payload) : List Product → Option (Product × List Product)
  | [] => none
  | p :: ps =>
    if p.id = pid then
      some (mergeUpdate p b, mergeUpdate p b :: ps)
    else
      match updateFirst pid b ps with
      | some (u, ps2) => some (u, p :: ps2)
      | none => none

/-- PUT /api/products/:id pipeline after authentication: validation
middleware, then merge in place (server.js lines 116-129). -/
def updateHandler (st : List Product) (pid : String) (b : Payload) : Response :=
  match validateProduct b with
  | some e => errorResponse st e
  | none =>
    match updateFirst pid b st with
    | some (u, st2) => (200, .jsonProduct u, st2)
    | none => errorResponse st (.notFound "Product not found")

/-- DELETE /api/products/:id handler (server.js lines 132-141): filters out
every product with the id, 404 when the length did not change. -/
def deleteHandler (st : List Product) (pid : String) : Response :=
  let st2 := st.filter (fun p => p.id != pid)
  if st2.length = st.length then errorResponse st (.notFound "Product not found")
  else (204, .empty, st2)

/-- Search predicate of server.js lines 150-153: the `||` short-circuits, so
`p.description.toLowerCase()` is only evaluated when the name does not
match; on a record without `description` that evaluation throws a
TypeError (no `statusCode`, hence 500 at the error middleware). -/
def searchPred (q : String) (p : Product) : Except AppError Bool :=
  if lowerIncludes p.name q then .ok true
  else
    match p.description with
    | none => .error (.generic "Cannot read properties of undefined")
    | some d => .ok (lowerIncludes d q)

/-- Array.prototype.filter evaluated left to right; the first throwing
predicate aborts the whole filter. -/
def searchScan (q : String) : List Product → Except AppError (List Product)
  | [] => .ok []
  | p :: ps =>
    match searchPred q p with
    | .error e => .error e
    | .ok true =>
      match searchScan q ps with
      | .ok rest => .ok (p :: rest)
      | .error e => .error e
    | .ok false => searchScan q ps

/-- GET /api/products/search handler (server.js lines 144-156): a falsy `q`
(absent or empty) is a ValidationError; otherwise the filtered products. -/
def searchHandler (st : List Product) (q : Option String) : Response :=
  match q with
  | none => errorResponse st (.validation "Search query required")
  | some qs =>
    if qs = "" then errorResponse st (.validation "Search query required")
    else
      match searchScan qs st with
      | .ok results => (200, .jsonProducts results, st)
      | .error e => errorResponse st e

/-- Step of the `reduce` on server.js lines 162-165: increment the count at a
category key, inserting it at the end when new (object key insertion order). -/
def bumpCategory (cat : String) : List (String × Nat) → List (String × Nat)
  | [] => [(cat, 1)]
  | (c, n) :: rest =>
    if c = cat then (c, n + 1) :: rest else (c, n) :: bumpCategory cat rest

/-- Category histogram built by the stats handler. -/
def byCategory (st : List Product) : List (String × Nat) :=
  st.foldl (fun acc p => bumpCategory p.category acc) []

def countInStock (st : List Product) : Nat :=
  (st.filter (fun p => p.inStock)).length

def countOutOfStock (st : List Product) : Nat :=
  (st.filter (fun p => !p.inStock)).length

/-- GET /api/products/stats handler (server.js lines 159-171). -/
def statsHandler (st : List Product) : Response :=
  (200, .statsObj st.length (byCategory st) (countInStock st) (countOutOfStock st), st)

/-- HTTP methods used by the application. -/
inductive Method where
  | get | post | put | delete
  deriving DecidableEq, Repr

/-- One segment of an Express path pattern: a literal or a `:param`. -/
inductive Seg where
  | lit (s : String)
  | param
  deriving DecidableEq, Repr

/-- Matching a pattern against a path split into segments, returning the
captured `:id` parameter when the pattern has one. -/
def matchSegs : List Seg → List String → Option (Option String)
  | [], [] => some none
  | .lit s :: ps, t :: ts => if s = t then matchSegs ps ts else none
  | .param :: ps, t :: ts =>
    match matchSegs ps ts with
    | some _ => some (some t)
    | none => none
  | _, _ => none

/-- Handler identities for the route table. -/
inductive HandlerTag where
  | root | listP | getById | createP | updateP | deleteP | searchP | statsP
  deriving DecidableEq, Repr

/-- The routes of server.js in registration order (lines 68, 73, 96, 105,
116, 132, 144, 159): the generic GET /api/products/:id is registered
before /api/products/search and /api/products/stats. -/
def routes : List (Method × List Seg × HandlerTag) :=
  [ (.get, [], .root)
  , (.get, [.lit "api", .lit "products"], .listP)
  , (.get, [.lit "api", .lit "products", .param], .getById)
  , (.post, [.lit "api", .lit "products"], .createP)
  , (.put, [.lit "api", .lit "products", .param], .updateP)
  , (.delete, [.lit "api", .lit "products", .param], .deleteP)
  , (.get, [.lit "api", .lit "products", .lit "search"], .searchP)
  , (.get, [.lit "api", .lit "products", .lit "stats"], .statsP) ]

/-- Express routing: first registered route whose method and pattern match. -/
def firstRoute : List (Method × List Seg × HandlerTag) → Method → List String → Option (HandlerTag × Option String)
  | [], _, _ => none
  | (m0, pat, h) :: rest, m, path =>
    if m0 = m then
      match matchSegs pat path with
      | some cap => some (h, cap)
      | none => firstRoute rest m path
    else firstRoute rest m path

def dispatch (m : Method) (path : List String) : Option (HandlerTag × Option String) :=
  firstRoute routes m path

/-- An incoming request: method, path segments, the `x-api-key` header, the
query parameters used by the handlers, and the parsed JSON body.  Numeric
query parameters are modelled at the claims' scope (positive integers, to
which JavaScript coerces numeric strings). -/
structure Request where
  method : Method
  path : List String
  apiKey : Option String := none
  q : Option String := none
  category : Option String := none
  pageQ : Option Nat := none
  limitQ : Option Nat := none
  body : Payload := {}
  deriving DecidableEq, Repr

/-- Authentication gate on mutating routes: on failure the 401 response is
sent and the downstream handler never runs. -/
def withAuth (secret : Option String) (st : List Product) (req : Request) (k : Response) : Response :=
  if authOk secret req.apiKey then k else (401, .messageObj "Unauthorized", st)

/-- Whole-application request semantics: dispatch in registration order, then
the matched pipeline.  An unmatched request gets the Express fallback 404
(plain text, outside the error taxonomy). -/
def app (secret : Option String) (freshId : String) (st : List Product) (req : Request) : Response :=
  match dispatch req.method req.path with
  | some (.root, _) => (200, .text "Products API is running", st)
  | some (.listP, _) => listHandler st req.category req.pageQ req.limitQ
  | some (.getById, cap) => getByIdHandler st (cap.getD "")
  | some (.createP, _) => withAuth secret st req (createHandler freshId st req.body)
  | some (.updateP, cap) => withAuth secret st req (updateHandler st (cap.getD "") req.body)
  | some (.deleteP, cap) => withAuth secret st req (deleteHandler st (cap.getD ""))
  | some (.searchP, _) => searchHandler st req.q
  | some (.statsP, _) => statsHandler st
  | none => (404, .text "Cannot match route", st)

/-- Exact rational 999.99, written in lowest terms so that it reduces in the
kernel (the decimal-literal elaboration does not). -/
def laptopPrice : ℚ := ⟨99999, 100, by decide, by decide⟩

/-- Exact rational 699.99 in lowest terms. -/
def phonePrice : ℚ := ⟨69999, 100, by decide, by decide⟩

/-- First seeded product (server.js lines 21-28); the startup uuids are
modelled by distinct placeholder strings. -/
def seedLaptop : Product :=
  { id := "uuid-1"
  , name := "Laptop"
  , description := some "High performance laptop"
  , price := .vNum laptopPrice
  , category := "Electronics"
  , inStock := true }

/-- Second seeded product (server.js lines 29-36). -/
def seedPhone : Product :=
  { id := "uuid-2"
  , name := "Smartphone"
  , description := some "Latest model"
  , price := .vNum phonePrice
  , category := "Electronics"
  , inStock := true }

/-- The seeded in-memory database (server.js lines 20-37). -/
def seedProducts : List Product := [seedLaptop, seedPhone]

/-- Variant of the first seeded product without a description, a state
reachable because `description` is optional on create. -/
def seedLaptopNoDesc : Product := { seedLaptop with description := none }

/-- Sum of the per-category counts of a histogram. -/
def sumCounts (l : List (String × Nat)) : Nat :=
  (l.map Prod.snd).sum

/-- Search match in the claims' vocabulary: the name or the description
contains the query case-insensitively, an absent description matching
nothing. -/
def searchMatches (q : String) (p : Product) : Bool :=
  lowerIncludes p.name q ||
    (match p.description with
     | some d => lowerIncludes d q
     | none => false)

/-- Test for the error envelope whose status field equals the given HTTP
status code. -/
def errorShaped (status : Nat) : ResBody → Bool
  | .errorObj _ s => s == status
  | _ => false

/-- Every response of a matched route is a success (200, 201, 204), the bare
401 message object from the authentication middleware, or the error
envelope carrying its own status code. -/
def wellFormedResponse (r : Response) : Prop :=
  r.1 = 200 ∨ r.1 = 201 ∨ r.1 = 204 ∨
    (r.1 = 401 ∧ r.2.1 = .messageObj "Unauthorized") ∨
    errorShaped r.1 r.2.1 = true

/-- Category filter of the list route in the amended claims' vocabulary: a
present-but-empty category applies no filter. -/
def listFilterSpec (st : List Product) (category : Option String) : List Product :=
  match category with
  | some c => if c = "" then st else st.filter (fun p => lowerEq p.category c)
  | none => st

/-- Rendering of claim C7's paged body, following the claim's words: the
window over positions (page-1)*limit to page*limit of the products
matching any present category case-insensitively, with the filtered count
and its ceiling-divided page count.  Compared against `listHandler`. -/
def listClaimBody (st : List Product) (category : Option String) (page lim : Nat) : ResBody :=
  let filtered : List Product :=
    match category with
    | some c => st.filter (fun p => lowerEq p.category c)
    | none => st
  .paged ((filtered.take (page * lim)).drop ((page - 1) * lim)) page
    (jsCeilDiv filtered.length lim) filtered.length

end ProductsApi

namespace ProductsApi

/-! Helper lemmas shared by several claims. -/

theorem sumCounts_nil : sumCounts [] = 0 := rfl

theorem sumCounts_bumpCategory (c : String) (acc : List (String × Nat)) :
    sumCounts (bumpCategory c acc) = sumCounts acc + 1 := by
  induction acc with
  | nil => rfl
  | cons hd tl ih =>
    obtain ⟨c0, n0⟩ := hd
    by_cases h : c0 = c
    · simp [bumpCategory, h, sumCounts]
      omega
    · simp [bumpCategory, h, sumCounts] at ih ⊢
      omega

theorem sumCounts_foldl_bump (st : List Product) :
    ∀ acc : List (String × Nat),
      sumCounts (st.foldl (fun (a : List (String × Nat)) (p : Product) => bumpCategory p.category a) acc)
        = sumCounts acc + st.length := by
  induction st with
  | nil => intro acc; simp
  | cons p ps ih =>
    intro acc
    simp only [List.foldl_cons, List.length_cons]
    rw [ih, sumCounts_bumpCategory]
    omega

theorem sumCounts_byCategory (st : List Product) :
    sumCounts (byCategory st) = st.length := by
  have h := sumCounts_foldl_bump st []
  simpa [byCategory, sumCounts] using h

theorem countInStock_add_countOutOfStock (st : List Product) :
    countInStock st + countOutOfStock st = st.length := by
  induction st with
  | nil => rfl
  | cons p ps ih =>
    by_cases h : p.inStock
    · simp [countInStock, countOutOfStock, List.filter, h] at ih ⊢
      omega
    · simp [countInStock, countOutOfStock, List.filter, h] at ih ⊢
      omega

/-! Claims C1 to C4. -/

/-- Claim C1: the spec demands that GET /api/products/search reach the search
handler; in server.js the generic /api/products/:id route is registered
first (line 96, before line 144), so the request is dispatched to the
get-by-id handler with id "search" and always yields 404.  On the seeded
store, where the search handler itself would return 200 with exactly the
case-insensitive "laptop" matches, the served response is 404.  This
refutes the claim against the code while confirming the intended handler
behaviour. -/
theorem c1_search_route_shadowed :
    dispatch .get ["api", "products", "search"] = some (.getById, some "search") ∧
    app none "fresh" seedProducts { method := .get, path := ["api", "products", "search"], q := some "laptop" }
      = (404, .errorObj "Product not found" 404, seedProducts) ∧
    searchHandler seedProducts (some "laptop") = (200, .jsonProducts [seedLaptop], seedProducts) ∧
    searchHandler seedProducts none
      = (400, .errorObj "Search query required" 400, seedProducts) := by
  exact ⟨by decide, by decide, by decide, by decide⟩

/-- Claim C2: GET /api/products/stats is likewise shadowed by the by-id route
and yields 404 instead of the aggregates; the stats handler itself does
satisfy the claimed arithmetic on every store: totalProducts is the store
size, the per-category counts sum to it, and inStock plus outOfStock
equals it. -/
theorem c2_stats_route_shadowed :
    (app none "fresh" seedProducts { method := .get, path := ["api", "products", "stats"] }
      = (404, .errorObj "Product not found" 404, seedProducts)) ∧
    ∀ st : List Product,
      statsHandler st
        = (200, .statsObj st.length (byCategory st) (countInStock st) (countOutOfStock st), st) ∧
      sumCounts (byCategory st) = st.length ∧
      countInStock st + countOutOfStock st = st.length := by
  refine ⟨by decide, fun st => ⟨rfl, sumCounts_byCategory st, countInStock_add_countOutOfStock st⟩⟩

/-- Claim C3: the create handler computes inStock as req.body.inStock || true
(server.js line 109), so an explicit false in the payload is stored as
true; the claim that the supplied value is kept fails at this input. -/
theorem c3_explicit_false_inStock_stored_true :
    app (some "secret") "fresh" []
        { method := .post, path := ["api", "products"], apiKey := some "secret"
        , body := { name := some "Widget", price := some (.vNum 5), category := some "Tools", inStock := some false } }
      = (201,
         .jsonProduct { id := "fresh", name := "Widget", description := none, price := .vNum 5, category := "Tools", inStock := true },
         [{ id := "fresh", name := "Widget", description := none, price := .vNum 5, category := "Tools", inStock := true }]) := by
  decide

/-- Claim C4: the POST handler spreads the request body after the generated
id (server.js lines 106-110), so a payload carrying an id property
overwrites the fresh uuid; creating against a store that already holds
"uuid-1" with a body whose id is "uuid-1" stores a duplicate id and
discards the fresh identifier "fresh-uuid". -/
theorem c4_client_id_overrides_fresh :
    ((app (some "secret") "fresh-uuid" [seedLaptop]
        { method := .post, path := ["api", "products"], apiKey := some "secret"
        , body := { idField := some "uuid-1", name := some "X", price := some (.vNum 1), category := some "C" } }).2.2.map Product.id
      = ["uuid-1", "uuid-1"]) ∧
    (createProduct "fresh-uuid"
        { idField := some "uuid-1", name := some "X", price := some (.vNum 1), category := some "C" }).id
      ≠ "fresh-uuid" := by
  exact ⟨by decide, by decide⟩

/-! Claim C5. -/

theorem dispatch_put_id (pid : String) :
    dispatch .put ["api", "products", pid] = some (.updateP, some pid) := rfl

theorem dispatch_post_products : dispatch .post ["api", "products"] = some (.createP, none) := rfl

theorem dispatch_delete_id (pid : String) :
    dispatch .delete ["api", "products", pid] = some (.deleteP, some pid) := rfl

theorem updateFirst_of_find (pid : String) (b : Payload) (st : List Product) (old : Product)
    (h : st.find? (fun p => p.id == pid) = some old) :
    ∃ st2, updateFirst pid b st = some (mergeUpdate old b, st2) := by
  induction st with
  | nil => simp at h
  | cons p ps ih =>
    by_cases hp : p.id = pid
    · rw [List.find?_cons_of_pos _ (by simpa using hp)] at h
      obtain rfl : p = old := by simpa using h
      exact ⟨mergeUpdate p b :: ps, by simp [updateFirst, hp]⟩
    · rw [List.find?_cons_of_neg _ (by simpa using hp)] at h
      obtain ⟨st2, hst2⟩ := ih h
      exact ⟨p :: st2, by simp [updateFirst, hp, hst2]⟩

theorem app_put_unfold (secret : Option String) (freshId pid : String) (st : List Product)
    (key : Option String) (b : Payload) :
    app secret freshId st { method := .put, path := ["api", "products", pid], apiKey := key, body := b }
      = withAuth secret st { method := .put, path := ["api", "products", pid], apiKey := key, body := b }
          (updateHandler st pid b) := rfl

/-- Claim C5 fails as stated: the validation middleware also runs on PUT
(server.js line 116), so an authenticated partial payload that omits name,
price and category — here a body supplying only a new description for the
existing product uuid-1 — is rejected with 400 instead of answering 200
with the merged record. -/
theorem c5_partial_update_rejected :
    app (some "secret") "fresh" [seedLaptop]
        { method := .put, path := ["api", "products", "uuid-1"], apiKey := some "secret"
        , body := { description := some "Refurbished" } }
      = (400, .errorObj "Name, price and category are required" 400, [seedLaptop]) := by
  decide

/-- Claim C5 (amended): for an authenticated update payload that passes
validation (name, positive numeric price and category all supplied), PUT
/api/products/:id on an existing product returns 200 with the record
obtained by merging the supplied fields onto the existing one: the id is
never altered, each omitted field keeps its prior value, and each supplied
field takes the supplied value. -/
theorem c5_update_merges_validated_payload
    (secret key freshId pid : String) (st : List Product) (b : Payload) (old : Product)
    (hauth : authOk (some secret) (some key) = true)
    (hval : validateProduct b = none)
    (hfind : st.find? (fun p => p.id == pid) = some old) :
    (∃ st2, app (some secret) freshId st
        { method := .put, path := ["api", "products", pid], apiKey := some key, body := b }
        = (200, .jsonProduct (mergeUpdate old b), st2)) ∧
    (mergeUpdate old b).id = old.id ∧
    (b.name = none → (mergeUpdate old b).name = old.name) ∧
    (b.description = none → (mergeUpdate old b).description = old.description) ∧
    (b.price = none → (mergeUpdate old b).price = old.price) ∧
    (b.category = none → (mergeUpdate old b).category = old.category) ∧
    (b.inStock = none → (mergeUpdate old b).inStock = old.inStock) ∧
    (∀ s, b.name = some s → (mergeUpdate old b).name = s) ∧
    (∀ d, b.description = some d → (mergeUpdate old b).description = some d) ∧
    (∀ v, b.price = some v → (mergeUpdate old b).price = v) ∧
    (∀ s, b.category = some s → (mergeUpdate old b).category = s) ∧
    (∀ v, b.inStock = some v → (mergeUpdate old b).inStock = v) := by
  obtain ⟨st2, hst2⟩ := updateFirst_of_find pid b st old hfind
  refine ⟨⟨st2, ?_⟩, rfl, ?_, ?_, ?_, ?_, ?_, ?_, ?_, ?_, ?_, ?_⟩
  · rw [app_put_unfold]
    simp [withAuth, hauth, updateHandler, hval, hst2]
  all_goals
    intros
    simp_all [mergeUpdate]

/-- Concrete instance of the amended C5 theorem: updating seeded product
uuid-1 with a validated payload returns 200 with the merged record. -/
theorem c5_update_merge_witness :
    ∃ st2, app (some "secret") "fresh" [seedLaptop]
        { method := .put, path := ["api", "products", "uuid-1"], apiKey := some "secret"
        , body := { name := some "New", price := some (.vNum 1), category := some "Cat" } }
        = (200, .jsonProduct (mergeUpdate seedLaptop { name := some "New", price := some (.vNum 1), category := some "Cat" }), st2) :=
  (c5_update_merges_validated_payload "secret" "secret" "fresh" "uuid-1" [seedLaptop]
    { name := some "New", price := some (.vNum 1), category := some "Cat" } seedLaptop
    (by decide) (by decide) (by decide)).1

/-! Claim C6. -/

theorem validateProduct_none_iff (b : Payload) :
    validateProduct b = none ↔
      truthyStr b.name = true ∧ truthyStr b.category = true ∧
        ∃ q : ℚ, b.price = some (.vNum q) ∧ 0 < q := by
  constructor
  · intro h
    unfold validateProduct at h
    split at h
    · simp at h
    · rename_i hcond
      push_neg at hcond
      obtain ⟨hn, hp, hc⟩ := hcond
      refine ⟨by simpa using hn, by simpa using hc, ?_⟩
      rcases hb : b.price with _ | (⟨s⟩ | ⟨q⟩ | ⟨bb⟩)
      · rw [hb] at h; simp at h
      · rw [hb] at h; simp at h
      · rw [hb] at h
        simp only [ite_eq_right_iff] at h
        refine ⟨q, rfl, ?_⟩
        by_contra hle
        exact absurd (h (le_of_not_lt hle)) (by simp)
      · rw [hb] at h; simp at h
  · rintro ⟨hn, hc, q, hb, hq⟩
    unfold validateProduct
    rw [hb]
    simp [truthyVal, JSVal.truthy, hn, hc, hq.not_le, hq.ne.symm]

theorem validateProduct_some_validation (b : Payload) (e : AppError)
    (h : validateProduct b = some e) : ∃ m, e = .validation m := by
  unfold validateProduct at h
  split at h
  · exact ⟨"Name, price and category are required", by simpa using h.symm⟩
  · rcases hb : b.price with _ | (⟨s⟩ | ⟨q⟩ | ⟨bb⟩) <;> rw [hb] at h
    · exact ⟨"Price must be a number", by simpa using h.symm⟩
    · exact ⟨"Price must be a number", by simpa using h.symm⟩
    · change (if q ≤ 0 then some (AppError.validation "Price must be greater than 0") else none) = some e at h
      by_cases hq : q ≤ 0
      · rw [if_pos hq] at h
        exact ⟨"Price must be greater than 0", by simpa using h.symm⟩
      · rw [if_neg hq] at h
        simp at h
    · exact ⟨"Price must be a number", by simpa using h.symm⟩

theorem app_post_unfold (secret : Option String) (freshId : String) (st : List Product)
    (key : Option String) (b : Payload) :
    app secret freshId st { method := .post, path := ["api", "products"], apiKey := key, body := b }
      = withAuth secret st { method := .post, path := ["api", "products"], apiKey := key, body := b }
          (createHandler freshId st b) := rfl

/-- Claim C6 fails in its pass-through direction: the payload with name
equal to the empty string has name, price and category all present, a
numeric price and price 5 greater than 0, yet validation rejects it
because the middleware tests JavaScript truthiness, not presence
(server.js line 52); the authenticated create is answered 400 and the
store stays empty. -/
theorem c6_empty_name_present_but_rejected :
    (({ name := some "", price := some (.vNum 5), category := some "C" } : Payload).name ≠ none) ∧
    validateProduct { name := some "", price := some (.vNum 5), category := some "C" }
      = some (.validation "Name, price and category are required") ∧
    app (some "secret") "fresh" []
        { method := .post, path := ["api", "products"], apiKey := some "secret"
        , body := { name := some "", price := some (.vNum 5), category := some "C" } }
      = (400, .errorObj "Name, price and category are required" 400, []) := by
  exact ⟨by decide, by decide, by decide⟩

/-- Claim C6 (amended): validation passes exactly when name and category are
truthy (present and non-empty) and the price is a number greater than 0;
every failing authenticated create is answered 400 with the validation
message and leaves the collection unchanged, and every passing one
appends exactly the product built from the unmodified payload fields. -/
theorem c6_validation_characterized
    (b : Payload) (st : List Product) (secret key freshId : String)
    (hauth : authOk (some secret) (some key) = true) :
    (validateProduct b = none ↔
      truthyStr b.name = true ∧ truthyStr b.category = true ∧
        ∃ q : ℚ, b.price = some (.vNum q) ∧ 0 < q) ∧
    (∀ e, validateProduct b = some e →
      ∃ m, e = .validation m ∧
        app (some secret) freshId st
            { method := .post, path := ["api", "products"], apiKey := some key, body := b }
          = (400, .errorObj m 400, st)) ∧
    (validateProduct b = none →
      app (some secret) freshId st
          { method := .post, path := ["api", "products"], apiKey := some key, body := b }
        = (201, .jsonProduct (createProduct freshId b), st ++ [createProduct freshId b])) := by
  refine ⟨validateProduct_none_iff b, ?_, ?_⟩
  · intro e he
    obtain ⟨m, rfl⟩ := validateProduct_some_validation b e he
    refine ⟨m, rfl, ?_⟩
    rw [app_post_unfold]
    simp [withAuth, hauth, createHandler, he, errorResponse, AppError.statusCode, AppError.msg]
  · intro hv
    rw [app_post_unfold]
    simp [withAuth, hauth, createHandler, hv]

/-- Concrete instance of the amended C6 theorem: an authenticated create with
a valid payload is answered 201 and appends exactly one product. -/
theorem c6_validation_witness :
    app (some "secret") "fresh" []
        { method := .post, path := ["api", "products"], apiKey := some "secret"
        , body := { name := some "Widget", price := some (.vNum 2), category := some "Toys" } }
      = (201,
         .jsonProduct (createProduct "fresh" { name := some "Widget", price := some (.vNum 2), category := some "Toys" }),
         [] ++ [createProduct "fresh" { name := some "Widget", price := some (.vNum 2), category := some "Toys" }]) :=
  (c6_validation_characterized
    { name := some "Widget", price := some (.vNum 2), category := some "Toys" }
    [] "secret" "secret" "fresh" (by decide)).2.2 (by decide)

/-! Claim C7. -/

theorem jsCeilDiv_le_iff (n l k : Nat) (hl : 1 ≤ l) :
    jsCeilDiv n l ≤ k ↔ n ≤ l * k := by
  unfold jsCeilDiv
  rw [Nat.div_le_iff_le_mul_add_pred hl]
  generalize l * k = A
  omega

/-- Claim C7 fails on a present-but-empty category parameter: the handler
tests JavaScript truthiness (if category, server.js line 78), so the
request category= applies no filter and returns both seeded products,
while the claim's reading (filter by any present category) would return
an empty page with zero totals. -/
theorem c7_empty_category_filter_mismatch :
    (listHandler seedProducts (some "") (some 1) (some 10)).2.1
      ≠ listClaimBody seedProducts (some "") 1 10 ∧
    (listHandler seedProducts (some "") (some 1) (some 10)).2.1
      = .paged seedProducts 1 1 2 ∧
    listClaimBody seedProducts (some "") 1 10 = .paged [] 1 0 0 := by
  exact ⟨by decide, by decide, by decide⟩

/-- Claim C7 (amended): for positive page and limit (defaulting to 1 and 10),
the list route answers 200 without mutating the store; its data is the
positional window from (page-1)*limit to page*limit over the products
matching the category case-insensitively in insertion order — all
products when the category is absent or empty; totalItems is the
filtered count and totalPages is its ceiling division by limit, the
least k with totalItems at most limit times k. -/
theorem c7_list_window
    (st : List Product) (category : Option String) (pageQ limitQ : Option Nat)
    (_hp : 1 ≤ pageQ.getD 1) (hl : 1 ≤ limitQ.getD 10) :
    listHandler st category pageQ limitQ
      = (200,
         .paged (((listFilterSpec st category).take (pageQ.getD 1 * limitQ.getD 10)).drop
                   ((pageQ.getD 1 - 1) * limitQ.getD 10))
           (pageQ.getD 1)
           (jsCeilDiv (listFilterSpec st category).length (limitQ.getD 10))
           (listFilterSpec st category).length,
         st) ∧
    (∀ k, jsCeilDiv (listFilterSpec st category).length (limitQ.getD 10) ≤ k
       ↔ (listFilterSpec st category).length ≤ limitQ.getD 10 * k) := by
  constructor
  · unfold listHandler listFilterSpec
    rw [List.drop_take]
  · intro k
    exact jsCeilDiv_le_iff _ _ k hl

/-- Concrete instance of the amended C7 theorem, matching the spec's worked
example: two seeded Electronics products, category electronics, page 1,
limit 1 give one data row, currentPage 1, totalPages 2, totalItems 2. -/
theorem c7_list_window_witness :
    listHandler seedProducts (some "electronics") (some 1) (some 1)
      = (200,
         .paged (((listFilterSpec seedProducts (some "electronics")).take (1 * 1)).drop (0 * 1))
           1 (jsCeilDiv (listFilterSpec seedProducts (some "electronics")).length 1)
           (listFilterSpec seedProducts (some "electronics")).length,
         seedProducts) :=
  (c7_list_window seedProducts (some "electronics") (some 1) (some 1)
    (by decide) (by decide)).1

/-! Claim C8. -/

theorem authOk_false (secret : String) (apiKey : Option String)
    (h : apiKey = none ∨ ∀ k, apiKey = some k → k ≠ secret) :
    authOk (some secret) apiKey = false := by
  rcases apiKey with _ | k
  · rfl
  · have hk : k ≠ secret := by
      rcases h with h | h
      · simp at h
      · exact h k rfl
    change (if k = "" then false else decide (some secret = some k)) = false
    by_cases hke : k = ""
    · simp [hke]
    · rw [if_neg hke]
      simp only [decide_eq_false_iff_not]
      intro hc
      exact hk (Option.some_inj.mp hc).symm

theorem app_post_eq (secret : Option String) (freshId : String) (st : List Product) (req : Request)
    (hm : req.method = .post) (hp : req.path = ["api", "products"]) :
    app secret freshId st req = withAuth secret st req (createHandler freshId st req.body) := by
  obtain ⟨m, path, key, q2, cat, pq, lq, b⟩ := req
  obtain rfl : m = .post := hm
  obtain rfl : path = ["api", "products"] := hp
  rfl

theorem app_put_eq (secret : Option String) (freshId : String) (st : List Product) (req : Request)
    (i : String) (hm : req.method = .put) (hp : req.path = ["api", "products", i]) :
    app secret freshId st req = withAuth secret st req (updateHandler st i req.body) := by
  obtain ⟨m, path, key, q2, cat, pq, lq, b⟩ := req
  obtain rfl : m = .put := hm
  obtain rfl : path = ["api", "products", i] := hp
  rfl

theorem app_delete_eq (secret : Option String) (freshId : String) (st : List Product) (req : Request)
    (i : String) (hm : req.method = .delete) (hp : req.path = ["api", "products", i]) :
    app secret freshId st req = withAuth secret st req (deleteHandler st i) := by
  obtain ⟨m, path, key, q2, cat, pq, lq, b⟩ := req
  obtain rfl : m = .delete := hm
  obtain rfl : path = ["api", "products", i] := hp
  rfl

/-- Claim C8: on any mutating route (POST create, PUT update, DELETE), a
request whose x-api-key header is absent or differs from the configured
secret is answered 401 Unauthorized with the bare message body, and the
collection is returned unchanged — the downstream handler's effect never
happens (server.js lines 40-46, 105, 116, 132). -/
theorem c8_unauthorized_requests_rejected
    (secret freshId : String) (st : List Product) (req : Request)
    (hroute :
      (req.method = .post ∧ req.path = ["api", "products"]) ∨
      (req.method = .put ∧ ∃ i, req.path = ["api", "products", i]) ∨
      (req.method = .delete ∧ ∃ i, req.path = ["api", "products", i]))
    (hkey : req.apiKey = none ∨ ∀ k, req.apiKey = some k → k ≠ secret) :
    app (some secret) freshId st req = (401, .messageObj "Unauthorized", st) := by
  have hauth : authOk (some secret) req.apiKey = false := authOk_false secret req.apiKey hkey
  obtain ⟨hm, hp⟩ | ⟨hm, i, hp⟩ | ⟨hm, i, hp⟩ := hroute
  · rw [app_post_eq (some secret) freshId st req hm hp]
    simp [withAuth, hauth]
  · rw [app_put_eq (some secret) freshId st req i hm hp]
    simp [withAuth, hauth]
  · rw [app_delete_eq (some secret) freshId st req i hm hp]
    simp [withAuth, hauth]

/-- Concrete instance of C8: a DELETE with a wrong key is answered 401 and
the store keeps its product. -/
theorem c8_unauthorized_witness :
    app (some "secret") "fresh" [seedLaptop]
        { method := .delete, path := ["api", "products", "uuid-1"], apiKey := some "wrong" }
      = (401, .messageObj "Unauthorized", [seedLaptop]) :=
  c8_unauthorized_requests_rejected "secret" "fresh" [seedLaptop]
    { method := .delete, path := ["api", "products", "uuid-1"], apiKey := some "wrong" }
    (Or.inr (Or.inr ⟨rfl, "uuid-1", rfl⟩))
    (Or.inr (fun k hk => by
      obtain rfl : k = "wrong" := by simpa using hk.symm
      decide))

/-! Claim C9. -/

theorem errorShaped_errorResponse (st : List Product) (e : AppError) :
    errorShaped (errorResponse st e).1 (errorResponse st e).2.1 = true := by
  cases e <;> rfl

theorem wellFormed_errorResponse (st : List Product) (e : AppError) :
    wellFormedResponse (errorResponse st e) :=
  Or.inr (Or.inr (Or.inr (Or.inr (errorShaped_errorResponse st e))))

theorem wellFormed_withAuth (secret : Option String) (st : List Product) (req : Request)
    (k : Response) (hk : wellFormedResponse k) :
    wellFormedResponse (withAuth secret st req k) := by
  unfold withAuth
  split
  · exact hk
  · exact Or.inr (Or.inr (Or.inr (Or.inl ⟨rfl, rfl⟩)))

theorem wellFormed_getById (st : List Product) (pid : String) :
    wellFormedResponse (getByIdHandler st pid) := by
  unfold getByIdHandler
  split
  · exact Or.inl rfl
  · exact wellFormed_errorResponse st _

theorem wellFormed_createHandler (freshId : String) (st : List Product) (b : Payload) :
    wellFormedResponse (createHandler freshId st b) := by
  unfold createHandler
  split
  · exact wellFormed_errorResponse st _
  · exact Or.inr (Or.inl rfl)

theorem wellFormed_updateHandler (st : List Product) (pid : String) (b : Payload) :
    wellFormedResponse (updateHandler st pid b) := by
  unfold updateHandler
  split
  · exact wellFormed_errorResponse st _
  · split
    · exact Or.inl rfl
    · exact wellFormed_errorResponse st _

theorem wellFormed_deleteHandler (st : List Product) (pid : String) :
    wellFormedResponse (deleteHandler st pid) := by
  by_cases h : (st.filter (fun p => p.id != pid)).length = st.length
  · have hd : deleteHandler st pid = errorResponse st (.notFound "Product not found") := by
      unfold deleteHandler
      exact if_pos h
    rw [hd]
    exact wellFormed_errorResponse st _
  · have hd : deleteHandler st pid = (204, .empty, st.filter (fun p => p.id != pid)) := by
      unfold deleteHandler
      exact if_neg h
    rw [hd]
    exact Or.inr (Or.inr (Or.inl rfl))

theorem wellFormed_searchHandler (st : List Product) (q : Option String) :
    wellFormedResponse (searchHandler st q) := by
  unfold searchHandler
  split
  · exact wellFormed_errorResponse st _
  · split
    · exact wellFormed_errorResponse st _
    · split
      · exact Or.inl rfl
      · exact wellFormed_errorResponse st _

/-- Claim C9 fails at the 401: the authentication middleware responds
directly with a body holding only a message field (server.js line 43),
bypassing the centralized error envelope, so the unauthorized failure
does not have the error/message/status/timestamp shape. -/
theorem c9_unauthorized_body_not_enveloped :
    (app (some "secret") "fresh" seedProducts
        { method := .post, path := ["api", "products"]
        , body := { name := some "X", price := some (.vNum 1), category := some "C" } }).1 = 401 ∧
    (app (some "secret") "fresh" seedProducts
        { method := .post, path := ["api", "products"]
        , body := { name := some "X", price := some (.vNum 1), category := some "C" } }).2.1
      = .messageObj "Unauthorized" ∧
    errorShaped 401
      (app (some "secret") "fresh" seedProducts
        { method := .post, path := ["api", "products"]
        , body := { name := some "X", price := some (.vNum 1), category := some "C" } }).2.1
      = false := by
  exact ⟨by decide, by decide, by decide⟩

/-- Claim C9 (amended): every response of a matched route is either a
success (200, 201 or 204), or the 401 with the bare Unauthorized message
emitted by the authentication middleware, or an error envelope whose
status field equals the HTTP status code of the response — so all
failures except the 401 carry the claimed shape. -/
theorem c9_matched_failures_enveloped
    (secret : Option String) (freshId : String) (st : List Product) (req : Request)
    (hmatch : dispatch req.method req.path ≠ none) :
    wellFormedResponse (app secret freshId st req) := by
  unfold app
  rcases hd : dispatch req.method req.path with _ | ⟨tag, cap⟩
  · exact absurd hd hmatch
  · cases tag
    · exact Or.inl rfl
    · exact Or.inl rfl
    · exact wellFormed_getById st _
    · exact wellFormed_withAuth secret st req _ (wellFormed_createHandler freshId st req.body)
    · exact wellFormed_withAuth secret st req _ (wellFormed_updateHandler st _ req.body)
    · exact wellFormed_withAuth secret st req _ (wellFormed_deleteHandler st _)
    · exact wellFormed_searchHandler st req.q
    · exact Or.inl rfl

/-- Concrete instance of the amended C9 theorem: a GET for an id that does
not exist is a matched route and its 404 body is well formed. -/
theorem c9_matched_failures_witness :
    wellFormedResponse (app none "fresh" [] { method := .get, path := ["api", "products", "nope"] }) :=
  c9_matched_failures_enveloped none "fresh" []
    { method := .get, path := ["api", "products", "nope"] } (by decide)

/-! Claim C10. -/

theorem searchPred_error_iff (q : String) (p : Product) (e : AppError) :
    searchPred q p = .error e ↔
      p.description = none ∧ lowerIncludes p.name q = false ∧
        e = .generic "Cannot read properties of undefined" := by
  unfold searchPred
  by_cases hn : lowerIncludes p.name q = true
  · simp [hn]
  · rcases hd : p.description with _ | d
    · simp only [if_neg hn, Bool.not_eq_true] at hn ⊢
      simp [hn, eq_comm]
    · simp only [if_neg hn, Bool.not_eq_true] at hn ⊢
      simp [hn, hd]

theorem searchPred_ok_match (q : String) (p : Product)
    (h : p.description ≠ none ∨ lowerIncludes p.name q = true) :
    searchPred q p = .ok (searchMatches q p) := by
  unfold searchPred searchMatches
  by_cases hn : lowerIncludes p.name q = true
  · simp [hn]
  · rcases hd : p.description with _ | d
    · rcases h with h | h
      · exact absurd hd h
      · exact absurd h hn
    · simp only [if_neg hn, Bool.not_eq_true] at hn ⊢
      simp [hn]

theorem searchScan_error_value (q : String) (st : List Product) (e : AppError)
    (h : searchScan q st = .error e) :
    e = .generic "Cannot read properties of undefined" := by
  induction st with
  | nil => simp [searchScan] at h
  | cons p ps ih =>
    unfold searchScan at h
    rcases hpred : searchPred q p with e0 | b
    · rw [hpred] at h
      obtain rfl : e0 = e := by simpa using h
      exact ((searchPred_error_iff q p _).mp hpred).2.2
    · rw [hpred] at h
      cases b
      · exact ih h
      · rcases hscan : searchScan q ps with e2 | rest
        · rw [hscan] at h
          obtain rfl : e2 = e := by simpa using h
          exact ih hscan
        · rw [hscan] at h
          simp at h

theorem searchScan_error_iff (q : String) (st : List Product) :
    (∃ e, searchScan q st = .error e) ↔
      ∃ p, p ∈ st ∧ p.description = none ∧ lowerIncludes p.name q = false := by
  induction st with
  | nil => simp [searchScan]
  | cons p ps ih =>
    constructor
    · rintro ⟨e, he⟩
      unfold searchScan at he
      rcases hpred : searchPred q p with e0 | b
      · obtain ⟨hd, hn, _⟩ := (searchPred_error_iff q p e0).mp hpred
        exact ⟨p, List.mem_cons_self p ps, hd, hn⟩
      · rw [hpred] at he
        cases b
        · obtain ⟨p2, hp2, hh⟩ := ih.mp ⟨e, he⟩
          exact ⟨p2, List.mem_cons_of_mem p hp2, hh⟩
        · rcases hscan : searchScan q ps with e2 | rest
          · obtain ⟨p2, hp2, hh⟩ := ih.mp ⟨e2, hscan⟩
            exact ⟨p2, List.mem_cons_of_mem p hp2, hh⟩
          · rw [hscan] at he
            simp at he
    · rintro ⟨p2, hp2, hd, hn⟩
      rcases List.mem_cons.mp hp2 with rfl | hmem
      · refine ⟨.generic "Cannot read properties of undefined", ?_⟩
        unfold searchScan
        rw [(searchPred_error_iff q p2 _).mpr ⟨hd, hn, rfl⟩]
      · obtain ⟨e, he⟩ := ih.mpr ⟨p2, hmem, hd, hn⟩
        rcases hpred : searchPred q p with e0 | b
        · exact ⟨e0, by unfold searchScan; rw [hpred]⟩
        · cases b
          · exact ⟨e, by unfold searchScan; rw [hpred]; exact he⟩
          · exact ⟨e, by unfold searchScan; rw [hpred, he]⟩

theorem searchScan_ok (q : String) (st : List Product)
    (h : ∀ p ∈ st, p.description = none → lowerIncludes p.name q = true) :
    searchScan q st = .ok (st.filter (searchMatches q)) := by
  induction st with
  | nil => rfl
  | cons p ps ih =>
    have hp : searchPred q p = .ok (searchMatches q p) := by
      apply searchPred_ok_match
      rcases hd : p.description with _ | d
      · exact Or.inr (h p (List.mem_cons_self p ps) hd)
      · exact Or.inl (by simp [hd])
    have ih2 := ih (fun p2 hp2 hd => h p2 (List.mem_cons_of_mem p hp2) hd)
    unfold searchScan
    rw [hp]
    cases hm : searchMatches q p
    · rw [ih2, List.filter_cons_of_neg (by simp [hm])]
    · rw [ih2, List.filter_cons_of_pos (by simp [hm])]

/-- Claim C10 fails as stated: the || on server.js lines 151-152
short-circuits, so a record whose name already matches the query never has
its missing description dereferenced; on a store holding only a
description-less Laptop, searching laptop succeeds with 200 and returns
the name match instead of failing. -/
theorem c10_missing_description_name_match_succeeds :
    seedLaptopNoDesc.description = none ∧
    searchHandler [seedLaptopNoDesc] (some "laptop")
      = (200, .jsonProducts [seedLaptopNoDesc], [seedLaptopNoDesc]) := by
  exact ⟨by decide, by decide⟩

/-- Claim C10 (amended): for any non-empty query, the search scan throws (a
TypeError surfacing as a 500 error response) exactly when some product
has an absent description and a name that does not contain the query
case-insensitively; when every description-less product's name matches
the query, search succeeds and returns the products whose name or
present description contains it. -/
theorem c10_search_error_characterized (st : List Product) (q : String) (hq : q ≠ "") :
    ((∃ e, searchScan q st = .error e) ↔
      ∃ p, p ∈ st ∧ p.description = none ∧ lowerIncludes p.name q = false) ∧
    ((∃ p, p ∈ st ∧ p.description = none ∧ lowerIncludes p.name q = false) →
      searchHandler st (some q)
        = (500, .errorObj "Cannot read properties of undefined" 500, st)) ∧
    ((∀ p ∈ st, p.description = none → lowerIncludes p.name q = true) →
      searchHandler st (some q) = (200, .jsonProducts (st.filter (searchMatches q)), st)) := by
  have hsome : searchHandler st (some q)
      = (match searchScan q st with
         | .ok results => (200, .jsonProducts results, st)
         | .error e => errorResponse st e) := by
    unfold searchHandler
    exact if_neg hq
  refine ⟨searchScan_error_iff q st, ?_, ?_⟩
  · intro hbad
    obtain ⟨e, he⟩ := (searchScan_error_iff q st).mpr hbad
    obtain rfl := searchScan_error_value q st e he
    rw [hsome, he]
    rfl
  · intro hgood
    rw [hsome, searchScan_ok q st hgood]

/-- Concrete instance of the amended C10 theorem: a query matching no name
on a store with a description-less product is answered 500. -/
theorem c10_search_error_witness :
    searchHandler [seedLaptopNoDesc] (some "zzz")
      = (500, .errorObj "Cannot read properties of undefined" 500, [seedLaptopNoDesc]) :=
  (c10_search_error_characterized [seedLaptopNoDesc] "zzz" (by decide)).2.1
    ⟨seedLaptopNoDesc, by simp, by decide, by decide⟩

end ProductsApi
